import Mathlib

/-!
Verification of the authorization-scoped CRUD core of the
nest-temperature-sensor-switcher service: a shallow embedding of the
Express route handlers (thermostat, sensor, user routes), the
authentication middleware, and the startup schema initialization,
together with theorems settling the specified properties.

Conventions of the embedding:
* SQLite tables become Lean lists of row structures inside `DBState`.
* Each route handler becomes a pure function from the request data and
  the database state to an `HttpResponse` paired with the new state.
* `BEGIN TRANSACTION` / `COMMIT` / `ROLLBACK` become snapshot semantics:
  the handler computes the new state functionally and returns the
  original state on every rollback path.
* A statement that may throw at the storage layer is modelled by an
  explicit fault parameter naming which statement (if any) throws.
* JavaScript truthiness: a missing or empty string is falsy, a missing
  or zero number is falsy.
-/

namespace NestSwitcher

/-- JS truthiness for an optional string (`!s`): falsy when absent or empty. -/
def strFalsy : Option String → Bool
  | none => true
  | some s => s = ""

/-- JS truthiness for an optional number (`!n`): falsy when absent or zero. -/
def natFalsy : Option Nat → Bool
  | none => true
  | some n => n = 0

/-- Row of the `thermostat` table as used by the API routes. -/
structure Thermostat where
  id : Nat
  name : String
  location : String
  deviceId : String
  deriving Repr, DecidableEq

/-- Row of the `sensors` table. -/
structure Sensor where
  id : Nat
  name : String
  deviceID : String
  thermostat_id : Nat
  deriving Repr, DecidableEq

/-- Row of the `user_thermostats` join table (composite primary key). -/
structure UserThermostat where
  user_id : Nat
  thermostat_id : Nat
  deriving Repr, DecidableEq

/-- Row of the `tokens` table; `expires_at` as an integer timestamp. -/
structure TokenRow where
  id : Nat
  user_id : Nat
  token : String
  expires_at : Int
  deriving Repr, DecidableEq

/-- Row of the `users` table; `password` holds the bcrypt hash. -/
structure UserRow where
  id : Nat
  username : String
  password : String
  email : String
  deriving Repr, DecidableEq

/-- The relational store shared by all route handlers. -/
structure DBState where
  thermostats : List Thermostat
  sensors : List Sensor
  userThermostats : List UserThermostat
  tokens : List TokenRow
  users : List UserRow
  nextThermostatId : Nat
  deriving Repr, DecidableEq

/-- A JSON response: HTTP status plus the body fields the core uses. -/
structure HttpResponse where
  status : Nat
  error : Option String := none
  message : Option String := none
  token : Option String := none
  deriving Repr, DecidableEq

/-! ## Authentication middleware (`src/middleware/auth.mts`) -/

/-- Outcome of the `authenticate` middleware: either a rejection response
was sent, or `next()` was called with `{id, username}` attached. -/
inductive AuthOutcome where
  | reject (resp : HttpResponse)
  | success (id : Nat) (username : String)
  deriving Repr, DecidableEq

/-- `SELECT * FROM tokens WHERE token = ?` — first row whose `token`
column equals the given value; no other column takes part. -/
def tokenLookup (tokens : List TokenRow) (token : String) : Option TokenRow :=
  tokens.find? (fun r => r.token = token)

/-- Whether the first list is an initial segment of the second
(structural form of string-prefix testing). -/
def charsLeading : List Char → List Char → Bool
  | [], _ => true
  | _ :: _, [] => false
  | p :: ps, s :: ss => p = s && charsLeading ps ss

/-- Split a character list at every occurrence of `c` (the semantics of
JavaScript `String.prototype.split` with a one-character separator). -/
def splitOnChar (c : Char) : List Char → List (List Char)
  | [] => [[]]
  | x :: xs =>
    let rest := splitOnChar c xs
    if x = c then [] :: rest
    else (x :: rest.headD []) :: rest.tail

/-- `authHeader.startsWith('Bearer ')`. -/
def headerStartsWithBearer (h : String) : Bool :=
  charsLeading "Bearer ".data h.data

/-- `authHeader.split(' ')[1]`: the second space-separated chunk of the
header, the bearer token itself. -/
def bearerToken (h : String) : String :=
  String.mk ((splitOnChar ' ' h.data).getD 1 [])

/-- The `authenticate` middleware.  `verify` abstracts
`jwt.verify(token, SECRET_KEY, cb)`: `none` means verification failed
(signature or JWT-internal expiry), `some (id, username)` is the decoded
payload.  `dbFails` injects a storage error in the token-store query. -/
def authenticate (header : Option String)
    (verify : String → Option (Nat × String))
    (tokens : List TokenRow) (dbFails : Bool) : AuthOutcome :=
  match header with
  | none => .reject { status := 401, error := some "Unauthorized" }
  | some h =>
    if headerStartsWithBearer h then
      let token := bearerToken h
      match verify token with
      | none => .reject { status := 403, error := some "Forbidden" }
      | some (id, username) =>
        if dbFails then
          .reject { status := 500, error := some "Internal server error" }
        else
          match tokenLookup tokens token with
          | none => .reject { status := 403, error := some "Forbidden" }
          | some _ => .success id username
    else
      .reject { status := 401, error := some "Unauthorized" }

/-! ## Thermostat routes (`src/api/thermostat.mts`) -/

/-- Which statement of the create-thermostat transaction throws, if any. -/
inductive CreateFault where
  | none
  | onThermostatInsert
  | onLinkInsert
  deriving Repr, DecidableEq

/-- `POST /thermostat`: validate the three body fields and the user
context, then inside one transaction insert the thermostat row and the
`user_thermostats` ownership row; commit on success, roll back (return
the original state) when either insert throws. -/
def addThermostat (fault : CreateFault) (st : DBState)
    (userId : Option Nat)
    (thermostatName location deviceId : Option String) :
    HttpResponse × DBState :=
  if strFalsy thermostatName then
    ({ status := 400, error := some "Missing thermostatName" }, st)
  else if strFalsy location then
    ({ status := 400, error := some "Missing location" }, st)
  else if strFalsy deviceId then
    ({ status := 400, error := some "Missing deviceId" }, st)
  else if natFalsy userId then
    ({ status := 400, error := some "Missing user context" }, st)
  else
    -- BEGIN TRANSACTION
    match fault with
    | .onThermostatInsert =>
      -- thermostat insert throws: catch → ROLLBACK → 500
      ({ status := 500, error := some "Failed to add thermostat or link to user" }, st)
    | .onLinkInsert =>
      -- ownership insert throws after the thermostat insert: catch → ROLLBACK → 500
      ({ status := 500, error := some "Failed to add thermostat or link to user" }, st)
    | .none =>
      let thermostatId := st.nextThermostatId
      let st' : DBState :=
        { st with
          thermostats := st.thermostats ++
            [{ id := thermostatId, name := thermostatName.getD "",
               location := location.getD "", deviceId := deviceId.getD "" }],
          userThermostats := st.userThermostats ++
            [{ user_id := userId.getD 0, thermostat_id := thermostatId }],
          nextThermostatId := thermostatId + 1 }
      -- COMMIT
      ({ status := 201 }, st')

/-- Whether the final `INSERT INTO user_thermostats` of the assign route
throws. -/
inductive AssignFault where
  | none
  | onInsert
  deriving Repr, DecidableEq

/-- `POST /thermostat/:id/assign`: inside one transaction check
existence (404), current-user ownership (403), duplicate assignment
(409) in that order, rolling back on the first failure; otherwise insert
the new ownership row and commit. -/
def assignThermostat (fault : AssignFault) (st : DBState)
    (currentUserId : Option Nat) (targetUserId : Option Nat)
    (thermostatId : Nat) : HttpResponse × DBState :=
  if natFalsy targetUserId then
    ({ status := 400, error := some "Missing target user ID" }, st)
  else if natFalsy currentUserId then
    ({ status := 401, error := some "Missing user context" }, st)
  else
    -- BEGIN TRANSACTION
    match st.thermostats.find? (fun t => t.id = thermostatId) with
    | none =>
      -- ROLLBACK
      ({ status := 404, error := some "Thermostat not found" }, st)
    | some _ =>
      match st.userThermostats.find?
          (fun r => r.user_id = currentUserId.getD 0 && r.thermostat_id = thermostatId) with
      | none =>
        -- ROLLBACK
        ({ status := 403, error := some "You do not own this thermostat" }, st)
      | some _ =>
        match st.userThermostats.find?
            (fun r => r.user_id = targetUserId.getD 0 && r.thermostat_id = thermostatId) with
        | some _ =>
          -- ROLLBACK
          ({ status := 409, error := some "Thermostat is already assigned to the target user" }, st)
        | none =>
          match fault with
          | .onInsert =>
            -- insert throws: catch → ROLLBACK → 500
            ({ status := 500, error := some "Failed to assign thermostat" }, st)
          | .none =>
            -- COMMIT
            ({ status := 200, message := some "Thermostat assigned successfully" },
             { st with userThermostats := st.userThermostats ++
                 [{ user_id := targetUserId.getD 0, thermostat_id := thermostatId }] })

/-! ## Sensor routes (`src/api/sensor.mts`) -/

/-- The three-way join `sensors JOIN thermostat ON s.thermostat_id = t.id
JOIN user_thermostats ut ON t.id = ut.thermostat_id WHERE ut.user_id = ?`.
With `user_id` fixed the composite key of `user_thermostats` makes the
join a filter on the sensors table. -/
def sensorsOwnedBy (st : DBState) (userId : Nat) : List Sensor :=
  st.sensors.filter (fun s =>
    (st.thermostats.any (fun t => t.id = s.thermostat_id)) &&
    (st.userThermostats.any (fun r =>
      r.user_id = userId && r.thermostat_id = s.thermostat_id)))

/-- `GET /sensor`: the sensors of thermostats the user owns. -/
def listSensors (st : DBState) (userId : Option Nat) : HttpResponse × List Sensor :=
  match userId with
  | none => ({ status := 401, error := some "User not authenticated" }, [])
  | some uid => ({ status := 200 }, sensorsOwnedBy st uid)

/-- `GET /sensor/sensor-names`: the same join projected to `name`. -/
def listSensorNames (st : DBState) (userId : Option Nat) : HttpResponse × List String :=
  match userId with
  | none => ({ status := 401, error := some "User not authenticated" }, [])
  | some uid => ({ status := 200 }, (sensorsOwnedBy st uid).map (fun s => s.name))

/-- `DELETE /sensor/:id`: scoped lookup of the sensor through the user's
`user_thermostats` rows (403 when it finds nothing), then
`DELETE FROM sensors WHERE id = ?` (404 when that affects zero rows). -/
def deleteSensor (st : DBState) (userId : Option Nat) (sensorId : Nat) :
    HttpResponse × DBState :=
  match userId with
  | none => ({ status := 401, error := some "User not authenticated" }, st)
  | some uid =>
    let found := st.sensors.find? (fun s =>
      s.id = sensorId &&
      (st.thermostats.any (fun t => t.id = s.thermostat_id)) &&
      (st.userThermostats.any (fun r =>
        r.user_id = uid && r.thermostat_id = s.thermostat_id)))
    match found with
    | none =>
      ({ status := 403, error := some "Sensor not found or not owned by the user" }, st)
    | some _ =>
      let remaining := st.sensors.filter (fun s => !(s.id = sensorId))
      let changes := st.sensors.length - remaining.length
      if changes = 0 then
        ({ status := 404, error := some "Sensor not found" }, st)
      else
        ({ status := 200, message := some "Sensor deleted successfully" },
         { st with sensors := remaining })

/-- The external automation collaborator
(`changeNestThermostat(deviceID, thermostatDeviceId, headless)`): called
with the sensor's external id, the thermostat's external id and the
headless flag; it either resolves or throws. -/
def Collaborator := String → String → Bool → Except String Unit

/-- `POST /sensor/change-sensor`: validate, resolve the thermostat by an
ownership-scoped lookup (403), resolve the sensor by name under that
thermostat (403), then invoke the collaborator with
`(sensor.deviceID, thermostat.deviceID, true)`; any exception it throws
is caught and collapsed to the generic 500.  The second component
records every collaborator invocation made, in order. -/
def changeSensor (collab : Collaborator) (st : DBState)
    (userId : Option Nat) (sensorName : Option String)
    (thermostat_id : Option Nat) :
    HttpResponse × List (String × String × Bool) :=
  if strFalsy sensorName then
    ({ status := 400, error := some "Missing sensorName" }, [])
  else if natFalsy thermostat_id then
    ({ status := 400, error := some "Missing thermostat_id" }, [])
  else if natFalsy userId then
    ({ status := 401, error := some "User not authenticated" }, [])
  else
    let tid := thermostat_id.getD 0
    let uid := userId.getD 0
    let thermostat := st.thermostats.find? (fun t =>
      t.id = tid && st.userThermostats.any (fun r =>
        r.user_id = uid && r.thermostat_id = tid))
    match thermostat with
    | none =>
      ({ status := 403, error := some "Thermostat not found or not owned by the user" }, [])
    | some t =>
      let sensor := st.sensors.find? (fun s =>
        s.name = sensorName.getD "" && s.thermostat_id = tid)
      match sensor with
      | none =>
        ({ status := 403,
           error := some "Sensor not found or not attached to the specified thermostat" }, [])
      | some s =>
        match collab s.deviceID t.deviceId true with
        | .error _ =>
          ({ status := 500, error := some "Failed to change temperature sensor" },
           [(s.deviceID, t.deviceId, true)])
        | .ok _ =>
          ({ status := 200,
             message := some ("Temperature sensor changed to: " ++ sensorName.getD ""
               ++ " for thermostat: " ++ t.name) },
           [(s.deviceID, t.deviceId, true)])

/-! ## Login route (`src/api/user.mts`) -/

/-- `POST /user/login`.  `check` abstracts `bcrypt.compare(password,
storedHash)`; `sign` abstracts `jwt.sign({id, username}, SECRET_KEY)`.
Look the user up by username; an unknown username and a failed hash
comparison both produce the same generic 401 response. -/
def login (st : DBState) (check : String → String → Bool)
    (sign : Nat → String → String)
    (username password : Option String) : HttpResponse :=
  if strFalsy username || strFalsy password then
    { status := 400, error := some "Missing username or password" }
  else
    match st.users.find? (fun u => u.username = username.getD "") with
    | none => { status := 401, error := some "Invalid credentials" }
    | some row =>
      if check (password.getD "") row.password then
        { status := 200, token := some (sign row.id (username.getD "")) }
      else
        { status := 401, error := some "Invalid credentials" }

/-! ## Startup schema initialization (`middleware/databaseInit.mts`) -/

/-- A `CREATE TABLE IF NOT EXISTS` statement: table name and the names
of its column definitions. -/
structure TableDef where
  table : String
  columns : List String
  deriving Repr, DecidableEq

/-- The five `CREATE TABLE IF NOT EXISTS` statements run by
`initializeDatabase`, with exactly the columns each statement declares. -/
def initializeDatabase : List TableDef :=
  [ { table := "sensors",
      columns := ["id", "name", "deviceID", "thermostat_id"] },
    { table := "users",
      columns := ["id", "username", "password", "email", "created_at"] },
    { table := "tokens",
      columns := ["id", "user_id", "token", "expires_at"] },
    { table := "thermostat",
      columns := ["id", "name", "location"] },
    { table := "user_thermostats",
      columns := ["user_id", "thermostat_id"] } ]

/-- The column list of the `INSERT INTO thermostat (name, location,
deviceId)` statement run by `POST /thermostat`. -/
def addThermostatInsertColumns : List String :=
  ["name", "location", "deviceId"]

/-! ## Theorems -/

/-- C1: with thermostatName, location, deviceId and an authenticated user
all present, the thermostat insert and the ownership insert of
`POST /thermostat` form one atomic unit: whichever statement throws, the
handler either commits both rows (201) or rolls back to exactly the
original store (500); and afterwards the new thermostat row exists if and
only if its ownership row does, so no persisted thermostat is ever left
without its ownership row. -/
theorem addThermostat_atomic (fault : CreateFault) (st : DBState)
    (uid : Nat) (n l d : String)
    (hu : uid ≠ 0) (hn : n ≠ "") (hl : l ≠ "") (hd : d ≠ "")
    (hfreshT : ∀ t ∈ st.thermostats, t.id ≠ st.nextThermostatId)
    (hfreshU : ∀ r ∈ st.userThermostats, r.thermostat_id ≠ st.nextThermostatId) :
    (((addThermostat fault st (some uid) (some n) (some l) (some d)).1.status = 201 ∧
      ({ id := st.nextThermostatId, name := n, location := l, deviceId := d } : Thermostat)
        ∈ (addThermostat fault st (some uid) (some n) (some l) (some d)).2.thermostats ∧
      ({ user_id := uid, thermostat_id := st.nextThermostatId } : UserThermostat)
        ∈ (addThermostat fault st (some uid) (some n) (some l) (some d)).2.userThermostats) ∨
    ((addThermostat fault st (some uid) (some n) (some l) (some d)).1.status = 500 ∧
      (addThermostat fault st (some uid) (some n) (some l) (some d)).2 = st)) ∧
    ((∃ t ∈ (addThermostat fault st (some uid) (some n) (some l) (some d)).2.thermostats,
        t.id = st.nextThermostatId) ↔
     (∃ r ∈ (addThermostat fault st (some uid) (some n) (some l) (some d)).2.userThermostats,
        r.thermostat_id = st.nextThermostatId)) := by
  cases fault with
  | none =>
    refine ⟨Or.inl ?_, ?_⟩
    · simp [addThermostat, strFalsy, natFalsy, hn, hl, hd, hu]
    · constructor
      · intro _
        refine ⟨{ user_id := uid, thermostat_id := st.nextThermostatId }, ?_, rfl⟩
        simp [addThermostat, strFalsy, natFalsy, hn, hl, hd, hu]
      · intro _
        refine ⟨{ id := st.nextThermostatId, name := n, location := l, deviceId := d }, ?_, rfl⟩
        simp [addThermostat, strFalsy, natFalsy, hn, hl, hd, hu]
  | onThermostatInsert =>
    refine ⟨Or.inr ?_, ?_⟩
    · simp [addThermostat, strFalsy, natFalsy, hn, hl, hd, hu]
    · constructor
      · rintro ⟨t, ht, hid⟩
        exact absurd hid (hfreshT t (by simpa [addThermostat, strFalsy, natFalsy, hn, hl, hd, hu] using ht))
      · rintro ⟨r, hr, hid⟩
        exact absurd hid (hfreshU r (by simpa [addThermostat, strFalsy, natFalsy, hn, hl, hd, hu] using hr))
  | onLinkInsert =>
    refine ⟨Or.inr ?_, ?_⟩
    · simp [addThermostat, strFalsy, natFalsy, hn, hl, hd, hu]
    · constructor
      · rintro ⟨t, ht, hid⟩
        exact absurd hid (hfreshT t (by simpa [addThermostat, strFalsy, natFalsy, hn, hl, hd, hu] using ht))
      · rintro ⟨r, hr, hid⟩
        exact absurd hid (hfreshU r (by simpa [addThermostat, strFalsy, natFalsy, hn, hl, hd, hu] using hr))

/-- Witness for `addThermostat_atomic` at a concrete input: a fault on
the ownership insert rolls the empty store back unchanged. -/
theorem addThermostat_atomic_witness :
    (addThermostat .onLinkInsert ⟨[], [], [], [], [], 1⟩
        (some 1) (some "Main Floor") (some "Living Room") (some "T3.ABC")).1.status = 500 ∧
    (addThermostat .onLinkInsert ⟨[], [], [], [], [], 1⟩
        (some 1) (some "Main Floor") (some "Living Room") (some "T3.ABC")).2
      = ⟨[], [], [], [], [], 1⟩ := by
  have h := addThermostat_atomic .onLinkInsert ⟨[], [], [], [], [], 1⟩ 1
    "Main Floor" "Living Room" "T3.ABC"
    (by decide) (by decide) (by decide) (by decide)
    (by intro t ht; simp at ht) (by intro r hr; simp at hr)
  rcases h.1 with ⟨hs, _⟩ | ⟨hs, hst⟩
  · exact absurd hs (by decide)
  · exact ⟨hs, hst⟩

/-- Helper: the 404 branch of the assign route. -/
lemma assign_branch_404 (f : AssignFault) (st : DBState) (u v tid : Nat)
    (hu : u ≠ 0) (hv : v ≠ 0)
    (ht : ∀ t ∈ st.thermostats, t.id ≠ tid) :
    assignThermostat f st (some u) (some v) tid =
      ({ status := 404, error := some "Thermostat not found" }, st) := by
  have hfind : st.thermostats.find? (fun t => t.id = tid) = none := by
    simp only [List.find?_eq_none, decide_eq_true_eq]
    exact ht
  simp [assignThermostat, natFalsy, hu, hv, hfind]

/-- Helper: the 403 branch of the assign route. -/
lemma assign_branch_403 (f : AssignFault) (st : DBState) (u v tid : Nat)
    (hu : u ≠ 0) (hv : v ≠ 0)
    (ht : ∃ t ∈ st.thermostats, t.id = tid)
    (hown : ∀ r ∈ st.userThermostats, ¬(r.user_id = u ∧ r.thermostat_id = tid)) :
    assignThermostat f st (some u) (some v) tid =
      ({ status := 403, error := some "You do not own this thermostat" }, st) := by
  have hfind : (st.thermostats.find? (fun t => t.id = tid)).isSome := by
    rw [List.find?_isSome]
    simpa using ht
  obtain ⟨t0, hfind⟩ := Option.isSome_iff_exists.mp hfind
  have hfind2 : st.userThermostats.find?
      (fun r => r.user_id = u && r.thermostat_id = tid) = none := by
    simp only [List.find?_eq_none, Bool.and_eq_true, decide_eq_true_eq, not_and]
    intro r hr h1 h2
    exact hown r hr ⟨h1, h2⟩
  simp [assignThermostat, natFalsy, hu, hv, hfind, hfind2]

/-- Helper: the 409 branch of the assign route. -/
lemma assign_branch_409 (f : AssignFault) (st : DBState) (u v tid : Nat)
    (hu : u ≠ 0) (hv : v ≠ 0)
    (ht : ∃ t ∈ st.thermostats, t.id = tid)
    (hown : ∃ r ∈ st.userThermostats, r.user_id = u ∧ r.thermostat_id = tid)
    (hdup : ∃ r ∈ st.userThermostats, r.user_id = v ∧ r.thermostat_id = tid) :
    assignThermostat f st (some u) (some v) tid =
      ({ status := 409, error := some "Thermostat is already assigned to the target user" }, st) := by
  have hfind : (st.thermostats.find? (fun t => t.id = tid)).isSome := by
    rw [List.find?_isSome]; simpa using ht
  obtain ⟨t0, hfind⟩ := Option.isSome_iff_exists.mp hfind
  have hfind2 : (st.userThermostats.find?
      (fun r => r.user_id = u && r.thermostat_id = tid)).isSome := by
    rw [List.find?_isSome]; simpa using hown
  obtain ⟨r0, hfind2⟩ := Option.isSome_iff_exists.mp hfind2
  have hfind3 : (st.userThermostats.find?
      (fun r => r.user_id = v && r.thermostat_id = tid)).isSome := by
    rw [List.find?_isSome]; simpa using hdup
  obtain ⟨r1, hfind3⟩ := Option.isSome_iff_exists.mp hfind3
  simp [assignThermostat, natFalsy, hu, hv, hfind, hfind2, hfind3]

/-- Helper: the success branch of the assign route. -/
lemma assign_branch_200 (st : DBState) (u v tid : Nat)
    (hu : u ≠ 0) (hv : v ≠ 0)
    (ht : ∃ t ∈ st.thermostats, t.id = tid)
    (hown : ∃ r ∈ st.userThermostats, r.user_id = u ∧ r.thermostat_id = tid)
    (hnodup : ∀ r ∈ st.userThermostats, ¬(r.user_id = v ∧ r.thermostat_id = tid)) :
    assignThermostat .none st (some u) (some v) tid =
      ({ status := 200, message := some "Thermostat assigned successfully" },
       { st with userThermostats := st.userThermostats ++
           [{ user_id := v, thermostat_id := tid }] }) := by
  have hfind : (st.thermostats.find? (fun t => t.id = tid)).isSome := by
    rw [List.find?_isSome]; simpa using ht
  obtain ⟨t0, hfind⟩ := Option.isSome_iff_exists.mp hfind
  have hfind2 : (st.userThermostats.find?
      (fun r => r.user_id = u && r.thermostat_id = tid)).isSome := by
    rw [List.find?_isSome]; simpa using hown
  obtain ⟨r0, hfind2⟩ := Option.isSome_iff_exists.mp hfind2
  have hfind3 : st.userThermostats.find?
      (fun r => r.user_id = v && r.thermostat_id = tid) = none := by
    simp only [List.find?_eq_none, Bool.and_eq_true, decide_eq_true_eq, not_and]
    intro r hr h1 h2
    exact hnodup r hr ⟨h1, h2⟩
  simp [assignThermostat, natFalsy, hu, hv, hfind, hfind2, hfind3]

/-- Helper: every non-200 outcome of the assign route leaves the store
unchanged. -/
lemma assign_failure_unchanged (f : AssignFault) (st : DBState)
    (cu tu : Option Nat) (tid : Nat)
    (h : (assignThermostat f st cu tu tid).1.status ≠ 200) :
    (assignThermostat f st cu tu tid).2 = st := by
  by_cases h1 : natFalsy tu
  · simp [assignThermostat, h1]
  · by_cases h2 : natFalsy cu
    · simp [assignThermostat, h1, h2]
    · rcases hf : st.thermostats.find? (fun t => t.id = tid) with _ | t0
      · simp [assignThermostat, h1, h2, hf]
      · rcases hg : st.userThermostats.find?
            (fun r => r.user_id = cu.getD 0 && r.thermostat_id = tid) with _ | r0
        · simp [assignThermostat, h1, h2, hf, hg]
        · rcases hh : st.userThermostats.find?
              (fun r => r.user_id = tu.getD 0 && r.thermostat_id = tid) with _ | r1
          · cases f with
            | none =>
              exfalso
              apply h
              simp [assignThermostat, h1, h2, hf, hg, hh]
            | onInsert =>
              simp [assignThermostat, h1, h2, hf, hg, hh]
          · simp [assignThermostat, h1, h2, hf, hg, hh]

/-- C2: with a target userId and an authenticated current user, the
assign route runs its checks in the fixed order 404 (thermostat absent),
403 (caller does not own it), 409 (target already owns it) inside the
open transaction, responding immediately with the store rolled back
unchanged on the first failure; only when all three pass is the new
`user_thermostats` row inserted and the commit answered with 200, and
every non-200 outcome (any fault included) leaves the store unchanged. -/
theorem assignThermostat_sequenced_checks (st : DBState) (u v tid : Nat)
    (hu : u ≠ 0) (hv : v ≠ 0) :
    ((∀ t ∈ st.thermostats, t.id ≠ tid) →
      assignThermostat .none st (some u) (some v) tid =
        ({ status := 404, error := some "Thermostat not found" }, st)) ∧
    ((∃ t ∈ st.thermostats, t.id = tid) →
     (∀ r ∈ st.userThermostats, ¬(r.user_id = u ∧ r.thermostat_id = tid)) →
      assignThermostat .none st (some u) (some v) tid =
        ({ status := 403, error := some "You do not own this thermostat" }, st)) ∧
    ((∃ t ∈ st.thermostats, t.id = tid) →
     (∃ r ∈ st.userThermostats, r.user_id = u ∧ r.thermostat_id = tid) →
     (∃ r ∈ st.userThermostats, r.user_id = v ∧ r.thermostat_id = tid) →
      assignThermostat .none st (some u) (some v) tid =
        ({ status := 409, error := some "Thermostat is already assigned to the target user" }, st)) ∧
    ((∃ t ∈ st.thermostats, t.id = tid) →
     (∃ r ∈ st.userThermostats, r.user_id = u ∧ r.thermostat_id = tid) →
     (∀ r ∈ st.userThermostats, ¬(r.user_id = v ∧ r.thermostat_id = tid)) →
      assignThermostat .none st (some u) (some v) tid =
        ({ status := 200, message := some "Thermostat assigned successfully" },
         { st with userThermostats := st.userThermostats ++
             [{ user_id := v, thermostat_id := tid }] })) ∧
    (∀ f : AssignFault,
      (assignThermostat f st (some u) (some v) tid).1.status ≠ 200 →
      (assignThermostat f st (some u) (some v) tid).2 = st) := by
  refine ⟨?_, ?_, ?_, ?_, ?_⟩
  · intro ht
    exact assign_branch_404 .none st u v tid hu hv ht
  · intro ht hown
    exact assign_branch_403 .none st u v tid hu hv ht hown
  · intro ht hown hdup
    exact assign_branch_409 .none st u v tid hu hv ht hown hdup
  · intro ht hown hnodup
    exact assign_branch_200 st u v tid hu hv ht hown hnodup
  · intro f hne
    exact assign_failure_unchanged f st (some u) (some v) tid hne

/-- Witness for `assignThermostat_sequenced_checks` at a concrete store:
user 1 owns thermostat 1, user 2 does not, and the assign commits with
200 and the new ownership row. -/
theorem assignThermostat_sequenced_checks_witness :
    assignThermostat .none ⟨[⟨1, "Main", "L", "T3"⟩], [], [⟨1, 1⟩], [], [], 2⟩
        (some 1) (some 2) 1 =
      ({ status := 200, message := some "Thermostat assigned successfully" },
       ⟨[⟨1, "Main", "L", "T3"⟩], [], [⟨1, 1⟩, ⟨2, 1⟩], [], [], 2⟩) := by
  have h := (assignThermostat_sequenced_checks
      ⟨[⟨1, "Main", "L", "T3"⟩], [], [⟨1, 1⟩], [], [], 2⟩ 1 2 1
      (by decide) (by decide)).2.2.2.1
      ⟨⟨1, "Main", "L", "T3"⟩, by simp, rfl⟩
      ⟨⟨1, 1⟩, by simp, rfl, rfl⟩
      (by intro r hr hc; simp at hr; rcases hc with ⟨h1, _⟩; simp [hr] at h1)
  simpa using h

/-- C7: assign is idempotent-rejecting: starting from a store where the
thermostat exists, the caller owns it and the target does not yet own
it, the first assign returns 200 and inserts the ownership row, and a
second identical assign returns 409 and leaves the store exactly as the
first left it — a duplicate assignment is a conflict, never a silent or
no-op success. -/
theorem assign_idempotent_rejecting (st : DBState) (u v tid : Nat)
    (hu : u ≠ 0) (hv : v ≠ 0)
    (ht : ∃ t ∈ st.thermostats, t.id = tid)
    (hown : ∃ r ∈ st.userThermostats, r.user_id = u ∧ r.thermostat_id = tid)
    (hnodup : ∀ r ∈ st.userThermostats, ¬(r.user_id = v ∧ r.thermostat_id = tid)) :
    (assignThermostat .none st (some u) (some v) tid).1.status = 200 ∧
    ({ user_id := v, thermostat_id := tid } : UserThermostat)
      ∈ (assignThermostat .none st (some u) (some v) tid).2.userThermostats ∧
    (assignThermostat .none (assignThermostat .none st (some u) (some v) tid).2
        (some u) (some v) tid).1.status = 409 ∧
    (assignThermostat .none (assignThermostat .none st (some u) (some v) tid).2
        (some u) (some v) tid).2
      = (assignThermostat .none st (some u) (some v) tid).2 := by
  have h1 := assign_branch_200 st u v tid hu hv ht hown hnodup
  have hsnd : (assignThermostat .none st (some u) (some v) tid).2 =
      { st with userThermostats := st.userThermostats ++
          [{ user_id := v, thermostat_id := tid }] } := by
    rw [h1]
  have ht1 : ∃ t ∈ ({ st with userThermostats := st.userThermostats ++
      [{ user_id := v, thermostat_id := tid }] } : DBState).thermostats, t.id = tid := ht
  have hown1 : ∃ r ∈ ({ st with userThermostats := st.userThermostats ++
      [{ user_id := v, thermostat_id := tid }] } : DBState).userThermostats,
      r.user_id = u ∧ r.thermostat_id = tid := by
    obtain ⟨r, hr, hru⟩ := hown
    exact ⟨r, by simp [hr], hru⟩
  have hdup1 : ∃ r ∈ ({ st with userThermostats := st.userThermostats ++
      [{ user_id := v, thermostat_id := tid }] } : DBState).userThermostats,
      r.user_id = v ∧ r.thermostat_id = tid :=
    ⟨{ user_id := v, thermostat_id := tid }, by simp, rfl, rfl⟩
  have h2 := assign_branch_409 .none _ u v tid hu hv ht1 hown1 hdup1
  refine ⟨by rw [h1], ?_, ?_, ?_⟩
  · rw [hsnd]
    simp
  · rw [hsnd, h2]
  · rw [hsnd, h2]

/-- Witness for `assign_idempotent_rejecting`: two successive assigns of
thermostat 1 to user 2 on a concrete store succeed exactly once. -/
theorem assign_idempotent_rejecting_witness :
    (assignThermostat .none ⟨[⟨1, "Main", "L", "T3"⟩], [], [⟨1, 1⟩], [], [], 2⟩
        (some 1) (some 2) 1).1.status = 200 ∧
    (assignThermostat .none (assignThermostat .none
        ⟨[⟨1, "Main", "L", "T3"⟩], [], [⟨1, 1⟩], [], [], 2⟩
        (some 1) (some 2) 1).2 (some 1) (some 2) 1).1.status = 409 := by
  have h := assign_idempotent_rejecting
      ⟨[⟨1, "Main", "L", "T3"⟩], [], [⟨1, 1⟩], [], [], 2⟩ 1 2 1
      (by decide) (by decide)
      ⟨⟨1, "Main", "L", "T3"⟩, by simp, rfl⟩
      ⟨⟨1, 1⟩, by simp, rfl, rfl⟩
      (by intro r hr hc; simp at hr; rcases hc with ⟨h1, _⟩; simp [hr] at h1)
  exact ⟨h.1, h.2.2.1⟩

/-- C3: the authentication gate produces exactly one of four outcomes: a
missing or malformed Authorization header yields 401 Unauthorized; a
header whose token fails verification yields 403 Forbidden; a token that
verifies but has no row in the token store also yields 403 Forbidden; a
storage error while querying the token store yields 500; only otherwise
is the decoded `{id, username}` attached and the handler invoked. -/
theorem authenticate_four_outcomes (header : Option String)
    (verify : String → Option (Nat × String))
    (tokens : List TokenRow) (dbFails : Bool) :
    (header = none →
      authenticate header verify tokens dbFails =
        .reject { status := 401, error := some "Unauthorized" }) ∧
    (∀ h, header = some h → ¬ (headerStartsWithBearer h) →
      authenticate header verify tokens dbFails =
        .reject { status := 401, error := some "Unauthorized" }) ∧
    (∀ h, header = some h → headerStartsWithBearer h →
      verify (bearerToken h) = none →
      authenticate header verify tokens dbFails =
        .reject { status := 403, error := some "Forbidden" }) ∧
    (∀ h i u, header = some h → headerStartsWithBearer h →
      verify (bearerToken h) = some (i, u) →
      dbFails = true →
      authenticate header verify tokens dbFails =
        .reject { status := 500, error := some "Internal server error" }) ∧
    (∀ h i u, header = some h → headerStartsWithBearer h →
      verify (bearerToken h) = some (i, u) →
      dbFails = false →
      (∀ r ∈ tokens, r.token ≠ bearerToken h) →
      authenticate header verify tokens dbFails =
        .reject { status := 403, error := some "Forbidden" }) ∧
    (∀ h i u, header = some h → headerStartsWithBearer h →
      verify (bearerToken h) = some (i, u) →
      dbFails = false →
      (∃ r ∈ tokens, r.token = bearerToken h) →
      authenticate header verify tokens dbFails = .success i u) := by
  refine ⟨?_, ?_, ?_, ?_, ?_, ?_⟩
  · rintro rfl
    rfl
  · rintro h rfl hmal
    simp [authenticate, hmal]
  · rintro h rfl hok hv
    simp [authenticate, hok, hv]
  · rintro h i u rfl hok hv rfl
    simp [authenticate, hok, hv]
  · rintro h i u rfl hok hv rfl habs
    have hfind : tokenLookup tokens (bearerToken h) = none := by
      unfold tokenLookup
      simp only [List.find?_eq_none, decide_eq_true_eq]
      exact habs
    simp [authenticate, hok, hv, hfind]
  · rintro h i u rfl hok hv rfl hmem
    have hfind : (tokenLookup tokens (bearerToken h)).isSome := by
      unfold tokenLookup
      rw [List.find?_isSome]
      simpa using hmem
    obtain ⟨r0, hfind⟩ := Option.isSome_iff_exists.mp hfind
    simp [authenticate, hok, hv, hfind]

/-- Witness for `authenticate_four_outcomes`: a well-formed header with
a verifying token present in the store resolves to the decoded
identity. -/
theorem authenticate_four_outcomes_witness :
    authenticate (some "Bearer tok")
        (fun t => if t = "tok" then some (1, "alice") else none)
        [⟨1, 1, "tok", 0⟩] false = .success 1 "alice" := by
  exact (authenticate_four_outcomes (some "Bearer tok")
      (fun t => if t = "tok" then some (1, "alice") else none)
      [⟨1, 1, "tok", 0⟩] false).2.2.2.2.2 "Bearer tok" 1 "alice" rfl
      (by decide) (by decide) rfl
      ⟨⟨1, 1, "tok", 0⟩, by simp, by decide⟩

/-- Helper: the token-store lookup ignores every column but `token`, so
rewriting `expires_at` pointwise commutes with the lookup. -/
lemma tokenLookup_map_expiry (tokens : List TokenRow) (tok : String)
    (f : Int → Int) :
    tokenLookup (tokens.map (fun r => { r with expires_at := f r.expires_at })) tok
      = (tokenLookup tokens tok).map (fun r => { r with expires_at := f r.expires_at }) := by
  induction tokens with
  | nil => rfl
  | cons r rest ih =>
    by_cases hr : r.token = tok
    · simp [tokenLookup, List.find?_cons, hr]
    · simpa [tokenLookup, List.find?_cons, hr] using ih

/-- C10: the gate's token-store lookup selects by token value only and
never consults `expires_at`: rewriting the stored expiry arbitrarily
never changes the gate's outcome, and a stored token whose `expires_at`
lies strictly in the past still authenticates successfully whenever the
JWT itself verifies. -/
theorem authenticate_ignores_stored_expiry (header : Option String)
    (verify : String → Option (Nat × String))
    (tokens : List TokenRow) (dbFails : Bool) (f : Int → Int) :
    (authenticate header verify
        (tokens.map (fun r => { r with expires_at := f r.expires_at })) dbFails
      = authenticate header verify tokens dbFails) ∧
    (∀ h i u (row : TokenRow) (now : Int),
      header = some h → headerStartsWithBearer h →
      verify (bearerToken h) = some (i, u) →
      dbFails = false →
      row ∈ tokens → row.token = bearerToken h →
      row.expires_at < now →
      authenticate header verify tokens dbFails = .success i u) := by
  constructor
  · unfold authenticate
    cases header with
    | none => rfl
    | some h =>
      by_cases hok : headerStartsWithBearer h
      · simp only [hok, if_true]
        cases verify (bearerToken h) with
        | none => rfl
        | some p =>
          cases dbFails with
          | true => rfl
          | false =>
            rw [tokenLookup_map_expiry]
            cases tokenLookup tokens (bearerToken h) with
            | none => rfl
            | some r0 => rfl
      · simp [hok]
  · rintro h i u row now rfl hok hv rfl hmem htok _
    have hfind : (tokenLookup tokens (bearerToken h)).isSome := by
      unfold tokenLookup
      rw [List.find?_isSome]
      exact ⟨row, hmem, by simp [htok]⟩
    obtain ⟨r0, hfind⟩ := Option.isSome_iff_exists.mp hfind
    simp [authenticate, hok, hv, hfind]

/-- Witness for `authenticate_ignores_stored_expiry`: a token row whose
stored expiry (-5) lies before the current time (0) still
authenticates, and negating every stored expiry changes nothing. -/
theorem authenticate_ignores_stored_expiry_witness :
    (authenticate (some "Bearer tok")
        (fun t => if t = "tok" then some (1, "alice") else none)
        (([⟨1, 1, "tok", -5⟩] : List TokenRow).map
          (fun r => { r with expires_at := -r.expires_at })) false
      = authenticate (some "Bearer tok")
        (fun t => if t = "tok" then some (1, "alice") else none)
        [⟨1, 1, "tok", -5⟩] false) ∧
    authenticate (some "Bearer tok")
        (fun t => if t = "tok" then some (1, "alice") else none)
        [⟨1, 1, "tok", -5⟩] false = .success 1 "alice" := by
  have h := authenticate_ignores_stored_expiry (some "Bearer tok")
      (fun t => if t = "tok" then some (1, "alice") else none)
      [⟨1, 1, "tok", -5⟩] false (fun x => -x)
  exact ⟨h.1, h.2 "Bearer tok" 1 "alice" ⟨1, 1, "tok", -5⟩ 0 rfl
      (by decide) (by decide) rfl (by simp) (by decide) (by decide)⟩

/-- Helper: in a sensors table with pairwise-distinct ids (the primary
key), two members with the same id are the same row. -/
lemma sensor_id_unique {l : List Sensor}
    (h : l.Pairwise (fun a b => a.id ≠ b.id))
    {a b : Sensor} (ha : a ∈ l) (hb : b ∈ l) (hid : a.id = b.id) : a = b := by
  by_contra hne
  exact (List.Pairwise.forall (fun x y hxy => (hxy ∘ Eq.symm)) h ha hb hne) hid

/-- C4: for an authenticated user `u` and a sensor `s` whose thermostat
has no `user_thermostats` row for `u`, the sensor list never returns
`s`, the sensor-names list is exactly the name projection of that same
scoped list, and deleting any sensor id whatsoever never removes `s`
from the store: every lookup is scoped through the caller's ownership
rows, not a bare existence lookup. -/
theorem sensor_endpoints_ownership_scoped (st : DBState) (u : Nat) (s : Sensor)
    (hmem : s ∈ st.sensors)
    (hids : st.sensors.Pairwise (fun a b => a.id ≠ b.id))
    (hnotown : ∀ r ∈ st.userThermostats,
      ¬(r.user_id = u ∧ r.thermostat_id = s.thermostat_id)) :
    s ∉ (listSensors st (some u)).2 ∧
    (listSensorNames st (some u)).2 = ((listSensors st (some u)).2).map (fun x => x.name) ∧
    (∀ sid, s ∈ (deleteSensor st (some u) sid).2.sensors) := by
  have hownedFalse : st.userThermostats.any
      (fun r => r.user_id = u && r.thermostat_id = s.thermostat_id) = false := by
    rw [Bool.eq_false_iff]
    intro hany
    rw [List.any_eq_true] at hany
    obtain ⟨r, hr, hp⟩ := hany
    simp only [Bool.and_eq_true, decide_eq_true_eq] at hp
    exact hnotown r hr hp
  refine ⟨?_, rfl, ?_⟩
  · intro hin
    simp only [listSensors, sensorsOwnedBy, List.mem_filter] at hin
    rw [hownedFalse] at hin
    simp at hin
  · intro sid
    unfold deleteSensor
    rcases hfind : st.sensors.find? (fun x =>
        x.id = sid &&
        (st.thermostats.any (fun t => t.id = x.thermostat_id)) &&
        (st.userThermostats.any (fun r =>
          r.user_id = u && r.thermostat_id = x.thermostat_id))) with _ | s0
    · simpa [hfind] using hmem
    · have hs0p := List.find?_some hfind
      have hs0mem := List.mem_of_find?_eq_some hfind
      simp only [Bool.and_eq_true, decide_eq_true_eq] at hs0p
      have hneq : s.id ≠ sid := by
        intro heq
        have hsame : s0 = s :=
          sensor_id_unique hids hs0mem hmem (by rw [hs0p.1.1, heq])
        rw [hsame] at hs0p
        rw [hs0p.2] at hownedFalse
        simp at hownedFalse
      simp only [hfind]
      by_cases hch : st.sensors.length -
          (st.sensors.filter (fun x => !(x.id = sid))).length = 0
      · simpa [hch] using hmem
      · simp only [hch, if_false]
        simp only [List.mem_filter]
        exact ⟨hmem, by simpa using hneq⟩

/-- Witness for `sensor_endpoints_ownership_scoped`: user 1 does not own
thermostat 1 (only user 2 does), so sensor 1 is invisible to user 1's
list and survives user 1's delete of its very id. -/
theorem sensor_endpoints_ownership_scoped_witness :
    (⟨1, "S", "D", 1⟩ : Sensor) ∉
      (listSensors ⟨[⟨1, "Main", "L", "T3"⟩], [⟨1, "S", "D", 1⟩], [⟨2, 1⟩], [], [], 2⟩
        (some 1)).2 ∧
    (⟨1, "S", "D", 1⟩ : Sensor) ∈
      (deleteSensor ⟨[⟨1, "Main", "L", "T3"⟩], [⟨1, "S", "D", 1⟩], [⟨2, 1⟩], [], [], 2⟩
        (some 1) 1).2.sensors := by
  have h := sensor_endpoints_ownership_scoped
      ⟨[⟨1, "Main", "L", "T3"⟩], [⟨1, "S", "D", 1⟩], [⟨2, 1⟩], [], [], 2⟩ 1
      ⟨1, "S", "D", 1⟩ (by simp) (by simp)
      (by intro r hr hc; simp at hr; rw [hr] at hc; simp at hc)
  exact ⟨h.1, h.2.2 1⟩

/-- C5 counterexample: user 1 owns thermostat 1 and sensor id 5 does not
exist, yet `DELETE /sensor/5` answers 403, not the 404 the claim
states — the scoped lookup fails first. -/
theorem deleteSensor_nonexistent_counterexample :
    (deleteSensor ⟨[⟨1, "Main", "L", "T3"⟩], [], [⟨1, 1⟩], [], [], 2⟩
        (some 1) 5).1.status = 403 ∧
    ¬ (deleteSensor ⟨[⟨1, "Main", "L", "T3"⟩], [], [⟨1, 1⟩], [], [], 2⟩
        (some 1) 5).1.status = 404 := by
  constructor
  · decide
  · decide

/-- C5 amended: a delete whose sensor id has no ownership-scoped match
(nonexistent id included, whether or not the user owns thermostats)
answers 403 with the store unchanged; the ownership-scoped 403 check
always runs first, and the 404 branch — delete affecting zero rows after
the check passed — is unreachable in sequential execution, so the
response is never 404. -/
theorem deleteSensor_403_before_404 (st : DBState) (u sid : Nat) :
    ((∀ s ∈ st.sensors, ¬(s.id = sid ∧
        (st.thermostats.any (fun t => t.id = s.thermostat_id)) = true ∧
        (st.userThermostats.any (fun r =>
          r.user_id = u && r.thermostat_id = s.thermostat_id)) = true)) →
      deleteSensor st (some u) sid =
        ({ status := 403, error := some "Sensor not found or not owned by the user" }, st)) ∧
    (deleteSensor st (some u) sid).1.status ≠ 404 := by
  constructor
  · intro habs
    have hfind : st.sensors.find? (fun x =>
        x.id = sid &&
        (st.thermostats.any (fun t => t.id = x.thermostat_id)) &&
        (st.userThermostats.any (fun r =>
          r.user_id = u && r.thermostat_id = x.thermostat_id))) = none := by
      simp only [List.find?_eq_none, Bool.and_eq_true, decide_eq_true_eq]
      intro s hs hp
      exact habs s hs ⟨hp.1.1, hp.1.2, hp.2⟩
    simp [deleteSensor, hfind]
  · unfold deleteSensor
    rcases hfind : st.sensors.find? (fun x =>
        x.id = sid &&
        (st.thermostats.any (fun t => t.id = x.thermostat_id)) &&
        (st.userThermostats.any (fun r =>
          r.user_id = u && r.thermostat_id = x.thermostat_id))) with _ | s0
    · simp [hfind]
    · have hs0p := List.find?_some hfind
      have hs0mem := List.mem_of_find?_eq_some hfind
      simp only [Bool.and_eq_true, decide_eq_true_eq] at hs0p
      have hlt : (st.sensors.filter (fun x => !(x.id = sid))).length < st.sensors.length := by
        rw [List.length_filter_lt_length_iff_exists]
        refine ⟨s0, hs0mem, ?_⟩
        simp [hs0p.1.1]
      have hch : ¬ (st.sensors.length -
          (st.sensors.filter (fun x => !(x.id = sid))).length = 0) := by
        omega
      simp [hfind, hch]

/-- Witness for `deleteSensor_403_before_404`: on a store where user 1
owns thermostat 1 and no sensors exist, deleting id 5 yields the 403
response with the store unchanged. -/
theorem deleteSensor_403_before_404_witness :
    deleteSensor ⟨[⟨1, "Main", "L", "T3"⟩], [], [⟨1, 1⟩], [], [], 2⟩ (some 1) 5 =
      ({ status := 403, error := some "Sensor not found or not owned by the user" },
       ⟨[⟨1, "Main", "L", "T3"⟩], [], [⟨1, 1⟩], [], [], 2⟩) := by
  exact (deleteSensor_403_before_404
      ⟨[⟨1, "Main", "L", "T3"⟩], [], [⟨1, 1⟩], [], [], 2⟩ 1 5).1
      (by intro s hs; simp at hs)

/-- C6: the change-sensor route invokes the external automation
collaborator only when both authorization steps resolve — the thermostat
is owned by the caller (yielding its device id and name) and a sensor of
the given name is attached to it (yielding its device id) — and then
exactly once with `(sensorDeviceId, thermostatDeviceId, true)`; a
collaborator exception is reported only as the generic 500 "Failed to
change temperature sensor", while on success the 200 message carries
both the sensor name and the thermostat name. -/
theorem changeSensor_collaborator_contract (collab : Collaborator) (st : DBState)
    (uid tid : Nat) (sn : String)
    (huid : uid ≠ 0) (htid : tid ≠ 0) (hsn : sn ≠ "") :
    ((∀ t ∈ st.thermostats, ¬(t.id = tid ∧
        ∃ r ∈ st.userThermostats, r.user_id = uid ∧ r.thermostat_id = tid)) →
      changeSensor collab st (some uid) (some sn) (some tid) =
        ({ status := 403, error := some "Thermostat not found or not owned by the user" }, [])) ∧
    (∀ t, st.thermostats.find? (fun t => t.id = tid &&
        st.userThermostats.any (fun r => r.user_id = uid && r.thermostat_id = tid)) = some t →
      (∀ s ∈ st.sensors, ¬(s.name = sn ∧ s.thermostat_id = tid)) →
      changeSensor collab st (some uid) (some sn) (some tid) =
        ({ status := 403,
           error := some "Sensor not found or not attached to the specified thermostat" }, [])) ∧
    (∀ t s, st.thermostats.find? (fun t => t.id = tid &&
        st.userThermostats.any (fun r => r.user_id = uid && r.thermostat_id = tid)) = some t →
      st.sensors.find? (fun s => s.name = sn && s.thermostat_id = tid) = some s →
      (changeSensor collab st (some uid) (some sn) (some tid)).2
        = [(s.deviceID, t.deviceId, true)] ∧
      (∀ e, collab s.deviceID t.deviceId true = .error e →
        changeSensor collab st (some uid) (some sn) (some tid) =
          ({ status := 500, error := some "Failed to change temperature sensor" },
           [(s.deviceID, t.deviceId, true)])) ∧
      (collab s.deviceID t.deviceId true = .ok () →
        changeSensor collab st (some uid) (some sn) (some tid) =
          ({ status := 200,
             message := some ("Temperature sensor changed to: " ++ sn
               ++ " for thermostat: " ++ t.name) },
           [(s.deviceID, t.deviceId, true)]))) := by
  refine ⟨?_, ?_, ?_⟩
  · intro habs
    have hfindT : st.thermostats.find? (fun t => t.id = tid &&
        st.userThermostats.any (fun r => r.user_id = uid && r.thermostat_id = tid)) = none := by
      simp only [List.find?_eq_none, Bool.and_eq_true, decide_eq_true_eq, List.any_eq_true]
      intro t ht hp
      exact habs t ht ⟨hp.1, by simpa using hp.2⟩
    simp [changeSensor, strFalsy, natFalsy, hsn, htid, huid, hfindT]
  · intro t hfindT habsS
    have hfindS : st.sensors.find? (fun s => s.name = sn && s.thermostat_id = tid) = none := by
      simp only [List.find?_eq_none, Bool.and_eq_true, decide_eq_true_eq]
      intro s hs hp
      exact habsS s hs hp
    simp [changeSensor, strFalsy, natFalsy, hsn, htid, huid, hfindT, hfindS]
  · intro t s hfindT hfindS
    refine ⟨?_, ?_, ?_⟩
    · rcases hc : collab s.deviceID t.deviceId true with e | u
      · simp [changeSensor, strFalsy, natFalsy, hsn, htid, huid, hfindT, hfindS, hc]
      · simp [changeSensor, strFalsy, natFalsy, hsn, htid, huid, hfindT, hfindS, hc]
    · intro e hc
      simp [changeSensor, strFalsy, natFalsy, hsn, htid, huid, hfindT, hfindS, hc]
    · intro hc
      simp [changeSensor, strFalsy, natFalsy, hsn, htid, huid, hfindT, hfindS, hc]

/-- Witness for `changeSensor_collaborator_contract`, matching the
spec's end-to-end scenario: thermostat 1 "Main Floor" with device
"T3.ABC" owned by user 1, sensor "Bedroom Sensor" with device "S1"
attached to it; the collaborator is invoked with ("S1", "T3.ABC", true)
and the 200 message names both. -/
theorem changeSensor_collaborator_contract_witness :
    changeSensor (fun _ _ _ => .ok ())
        ⟨[⟨1, "Main Floor", "Living Room", "T3.ABC"⟩],
         [⟨1, "Bedroom Sensor", "S1", 1⟩], [⟨1, 1⟩], [], [], 2⟩
        (some 1) (some "Bedroom Sensor") (some 1) =
      ({ status := 200,
         message := some "Temperature sensor changed to: Bedroom Sensor for thermostat: Main Floor" },
       [("S1", "T3.ABC", true)]) := by
  have h := (changeSensor_collaborator_contract (fun _ _ _ => .ok ())
      ⟨[⟨1, "Main Floor", "Living Room", "T3.ABC"⟩],
       [⟨1, "Bedroom Sensor", "S1", 1⟩], [⟨1, 1⟩], [], [], 2⟩
      1 1 "Bedroom Sensor" (by decide) (by decide) (by decide)).2.2
      ⟨1, "Main Floor", "Living Room", "T3.ABC"⟩
      ⟨1, "Bedroom Sensor", "S1", 1⟩ (by decide) (by decide)
  exact (h.2.2 rfl)

/-- C8: the login route's 401 responses are indistinguishable between an
unknown username and a known username with a non-matching password: both
runs produce exactly the same generic "Invalid credentials" response,
revealing nothing about which condition failed. -/
theorem login_invalid_credentials_indistinguishable
    (st₁ st₂ : DBState)
    (check₁ check₂ : String → String → Bool)
    (sign₁ sign₂ : Nat → String → String)
    (un₁ pw₁ un₂ pw₂ : String)
    (h₁ : un₁ ≠ "") (h₂ : pw₁ ≠ "") (h₃ : un₂ ≠ "") (h₄ : pw₂ ≠ "")
    (hunknown : ∀ u ∈ st₁.users, u.username ≠ un₁)
    (row : UserRow)
    (hrow : st₂.users.find? (fun u => u.username = un₂) = some row)
    (hwrong : check₂ pw₂ row.password = false) :
    login st₁ check₁ sign₁ (some un₁) (some pw₁)
      = login st₂ check₂ sign₂ (some un₂) (some pw₂) ∧
    login st₁ check₁ sign₁ (some un₁) (some pw₁)
      = { status := 401, error := some "Invalid credentials" } := by
  have hfind₁ : st₁.users.find? (fun u => u.username = un₁) = none := by
    simp only [List.find?_eq_none, decide_eq_true_eq]
    exact hunknown
  have e₁ : login st₁ check₁ sign₁ (some un₁) (some pw₁)
      = { status := 401, error := some "Invalid credentials" } := by
    simp [login, strFalsy, h₁, h₂, hfind₁]
  have e₂ : login st₂ check₂ sign₂ (some un₂) (some pw₂)
      = { status := 401, error := some "Invalid credentials" } := by
    simp [login, strFalsy, h₃, h₄, hrow, hwrong]
  exact ⟨e₁.trans e₂.symm, e₁⟩

/-- Witness for `login_invalid_credentials_indistinguishable`: an
unknown username against an empty user table and a wrong password
against a store holding alice produce the identical 401 response. -/
theorem login_invalid_credentials_indistinguishable_witness :
    login ⟨[], [], [], [], [], 1⟩ (fun _ _ => true) (fun _ _ => "t")
        (some "bob") (some "pw")
      = login ⟨[], [], [], [], [⟨1, "alice", "hash", "a@x"⟩], 1⟩
        (fun _ _ => false) (fun _ _ => "t") (some "alice") (some "pw") ∧
    login ⟨[], [], [], [], [], 1⟩ (fun _ _ => true) (fun _ _ => "t")
        (some "bob") (some "pw")
      = { status := 401, error := some "Invalid credentials" } := by
  exact login_invalid_credentials_indistinguishable
      ⟨[], [], [], [], [], 1⟩ ⟨[], [], [], [], [⟨1, "alice", "hash", "a@x"⟩], 1⟩
      (fun _ _ => true) (fun _ _ => false) (fun _ _ => "t") (fun _ _ => "t")
      "bob" "pw" "alice" "pw"
      (by decide) (by decide) (by decide) (by decide)
      (by intro u hu; simp at hu)
      ⟨1, "alice", "hash", "a@x"⟩ (by decide) rfl

/-- C9: what the startup schema initialization actually creates: it does
create the five tables, but its `thermostat` table has only the columns
`{id, name, location}` — the `deviceId` column the claim requires (and
the `POST /thermostat` insert writes) is absent from the created
schema. -/
theorem initializeDatabase_thermostat_lacks_deviceId :
    (initializeDatabase.map (fun td => td.table))
      = ["sensors", "users", "tokens", "thermostat", "user_thermostats"] ∧
    (∃ td ∈ initializeDatabase,
      td.table = "thermostat" ∧ td.columns = ["id", "name", "location"]) ∧
    (∀ td ∈ initializeDatabase, td.table = "thermostat" → "deviceId" ∉ td.columns) ∧
    "deviceId" ∈ addThermostatInsertColumns := by
  refine ⟨by decide, ?_, by decide, by decide⟩
  exact ⟨{ table := "thermostat", columns := ["id", "name", "location"] },
    by decide, rfl, rfl⟩

end NestSwitcher
